import Mathlib

/-!
# Verification of the flight-search orchestration core

A shallow embedding of the repository's API service layer
(`FlightApiService`): token lifecycle, offer normalization, airport
suggestion resolution, and the synthetic price-history generator.

Modelling conventions:
* JavaScript numbers are modelled as exact rationals (`ℚ`); `NaN` outcomes
  (e.g. `parseFloat` on a non-numeric string) are modelled as `Option.none`
  and propagate through arithmetic as `none`.
* `Date` values are modelled at day granularity as integers (days since the
  Unix epoch).  ISO-8601 date strings of in-range dates compare
  lexicographically exactly as their underlying days compare numerically,
  so the `localeCompare`-based sort is modelled as a sort on the day number.
* Each call takes a single `now`/`today` instant: the code reads the clock
  several times during one call, but at the granularity the claims speak
  about (day resolution, expiry comparison) a single instant is faithful.
* `fetch` outcomes are reified: a transport-level failure (the promise
  rejects, no response), a received non-success response, or a received
  success response with its parsed JSON body.
* `Math.random()` draws are supplied as an explicit stream `rand : ℕ → ℚ`
  indexed by the loop counter, isolating the one non-deterministic input.
-/

/-- `Math.round`: round half toward positive infinity, as a rational. -/
def jsRound (q : ℚ) : ℚ := ((⌊q + 1/2⌋ : ℤ) : ℚ)

/-- Decimal digit accumulator for a digit list (most significant first). -/
def parseDigits (ds : List Char) : ℕ :=
  ds.foldl (fun a c => a * 10 + (c.toNat - '0'.toNat)) 0

/-- The character-level phase of `parseFloat` on plain decimal literals:
optional leading whitespace and sign, an integer part, an optional
fraction.  Returns `(negative, integer part, fraction part, fraction
length)`, or `none` for `NaN` (no digit at all).  Exponent forms and
`Infinity` do not occur in this codebase's inputs and are out of the
modelled fragment. -/
def parseFloatParts (s : String) : Option (Bool × ℕ × ℕ × ℕ) :=
  let cs := s.toList.dropWhile (fun c => c = ' ' ∨ c = '\t' ∨ c = '\n' ∨ c = '\r')
  let signed : Bool × List Char :=
    match cs with
    | '-' :: r => (true, r)
    | '+' :: r => (false, r)
    | _ => (false, cs)
  let ip := signed.2.takeWhile Char.isDigit
  let rest := signed.2.dropWhile Char.isDigit
  let fp : List Char :=
    match rest with
    | '.' :: r => r.takeWhile Char.isDigit
    | _ => []
  if ip = [] ∧ fp = [] then none
  else some (signed.1, parseDigits ip, parseDigits fp, fp.length)

/-- `parseFloat`, assembling the parsed parts into an exact rational. -/
def jsParseFloat (s : String) : Option ℚ :=
  (parseFloatParts s).map (fun p =>
    (if p.1 then (-1 : ℚ) else 1) * ((p.2.1 : ℚ) + (p.2.2.1 : ℚ) / 10 ^ p.2.2.2))

/-- `String.prototype.toLowerCase` (ASCII fragment, which covers every
string this codebase manipulates). -/
def jsToLower (s : String) : String := String.mk (s.toList.map Char.toLower)

/-- `String.prototype.includes` on character lists. -/
def listIncludes (pat : List Char) : List Char → Bool
  | [] => pat = []
  | c :: rest => pat.isPrefixOf (c :: rest) || listIncludes pat rest

/-- `hay.includes(pat)`. -/
def jsIncludes (hay pat : String) : Bool := listIncludes pat.toList hay.toList

/-- `String.prototype.replace` with a plain-string pattern: replace the
first occurrence only. -/
def replaceFirstAux (pat rep : List Char) : List Char → List Char
  | [] => if pat = [] then rep else []
  | c :: rest =>
      if pat.isPrefixOf (c :: rest) then rep ++ (c :: rest).drop pat.length
      else c :: replaceFirstAux pat rep rest

/-- `s.replace(pat, rep)` for a string pattern. -/
def jsReplaceFirst (s pat rep : String) : String :=
  String.mk (replaceFirstAux pat.toList rep.toList s.toList)

/-- `Date.prototype.getDay` at day granularity: day of week, 0 = Sunday.
Day 0 of the epoch (1970-01-01) was a Thursday. -/
def jsGetDay (z : ℤ) : ℤ := (z + 4).emod 7

/-- `Date.prototype.getMonth` at day granularity: 0-based month of the
civil date for the given epoch day (standard days-to-civil algorithm). -/
def jsGetMonth (z : ℤ) : ℕ :=
  let days := z + 719468
  let era : ℤ := Int.fdiv days 146097
  let doe : ℕ := (days - era * 146097).toNat
  let yoe : ℕ := (doe - doe / 1460 + doe / 36524 - doe / 146096) / 365
  let doy : ℕ := doe - (365 * yoe + yoe / 4 - yoe / 100)
  let mp : ℕ := (5 * doy + 2) / 153
  (if mp < 10 then mp + 3 else mp - 9) - 1

/-- Outcome of one `fetch` call: the promise rejects with no response
(transport failure), a response arrives with a non-success status, or a
success response arrives carrying its parsed JSON body. -/
inductive FetchOutcome (α : Type) where
  | transportError : FetchOutcome α
  | failure : FetchOutcome α
  | success : α → FetchOutcome α
deriving Repr, DecidableEq

/-! ## Data model (from the `src` type declarations) -/

/-- One end of an `AmadeusSegment`: `{ iataCode, at }`.  The timestamp
field `at` is a Lean keyword, so it is embedded as `atTime`. -/
structure AmadeusEndpoint where
  iataCode : String
  atTime : String
deriving Repr, DecidableEq

/-- `AmadeusSegment`; `aircraft` holds the optional `aircraft.code`. -/
structure AmadeusSegment where
  departure : AmadeusEndpoint
  arrival : AmadeusEndpoint
  carrierCode : String
  number : String
  aircraft : Option String
deriving Repr, DecidableEq

/-- `AmadeusItinerary`. -/
structure AmadeusItinerary where
  duration : String
  segments : List AmadeusSegment
deriving Repr, DecidableEq

/-- The `price` object of an `AmadeusFlightOffer`. -/
structure AmadeusPrice where
  total : String
  currency : String
deriving Repr, DecidableEq

/-- `AmadeusFlightOffer`. -/
structure AmadeusFlightOffer where
  id : String
  itineraries : List AmadeusItinerary
  price : AmadeusPrice
deriving Repr, DecidableEq

/-- Departure/arrival block of the canonical `FlightOffer`. -/
structure FlightEndpoint where
  airport : String
  city : String
  time : String
  date : String
deriving Repr, DecidableEq

/-- The canonical `FlightOffer` the normalizer produces.  `price` is
`Option ℚ`: `none` models a `NaN` from `parseFloat`. -/
structure FlightOffer where
  id : String
  airline : String
  flightNumber : String
  departure : FlightEndpoint
  arrival : FlightEndpoint
  duration : String
  stops : ℕ
  price : Option ℚ
  currency : String
  aircraft : Option String
deriving Repr, DecidableEq

/-- `PriceHistory` entry; the date is an epoch day (see header). -/
structure PricePoint where
  date : ℤ
  price : ℚ
deriving Repr, DecidableEq

/-- An airport suggestion `{code, city, name}`. -/
structure AirportSuggestion where
  code : String
  city : String
  name : String
deriving Repr, DecidableEq

/-- `AmadeusLocation`, flattened: `cityName` is the optional
`address?.cityName`. -/
structure AmadeusLocation where
  iataCode : String
  name : String
  cityName : Option String
deriving Repr, DecidableEq

/-! ## Offer normalization (the `data.data?.map` body of `searchFlights`) -/

/-- Split a character list at the first occurrence of `sep`: the part
before it, and (when `sep` occurs) the part after it.  This realizes the
`[0]` and `[1]` elements of a JS `split(sep)`. -/
def splitFirst (sep : Char) : List Char → List Char × Option (List Char)
  | [] => ([], none)
  | c :: r =>
    if c = sep then ([], some r)
    else
      let p := splitFirst sep r
      (c :: p.1, p.2)

/-- `ts.split('T')[1].substring(0, 5)`: `none` when the timestamp has no
`'T'` separator (there the JS code would fault on `undefined`).  A second
`'T'` would start element `[2]` of the split, so the tail is cut at it. -/
def timeOfTimestamp (ts : String) : Option String :=
  ((splitFirst 'T' ts.toList).2).map (fun rest => String.mk ((splitFirst 'T' rest).1.take 5))

/-- `ts.split('T')[0]` (always defined: `split` never returns an empty
array). -/
def dateOfTimestamp (ts : String) : String := String.mk (splitFirst 'T' ts.toList).1

/-- `offer.id || \x7bflight-index\x7d`: the empty string is falsy. -/
def offerId (rawId : String) (index : ℕ) : String :=
  if rawId = "" then "flight-" ++ toString index else rawId

/-- The `const lastSegment = itinerary.segments[itinerary.segments.length
- 1]` binding, on a segment list known non-empty. -/
def lastSegmentOf (s : AmadeusSegment) (ss : List AmadeusSegment) : AmadeusSegment :=
  (s :: ss).getLast (List.cons_ne_nil s ss)

/-- The arrow body mapped over `data.data` in `searchFlights`, one raw
offer and its index to a canonical offer.  `none` models the paths where
the JS code would throw on malformed input (no itinerary, no segment, or a
timestamp without a `'T'`). -/
def normalizeOffer (offer : AmadeusFlightOffer) (index : ℕ) : Option FlightOffer :=
  match offer.itineraries with
  | [] => none
  | itinerary :: _ =>
    match itinerary.segments with
    | [] => none
    | firstSegment :: restSegments =>
      match timeOfTimestamp firstSegment.departure.atTime,
            timeOfTimestamp (lastSegmentOf firstSegment restSegments).arrival.atTime with
      | some depTime, some arrTime =>
          some {
            id := offerId offer.id index,
            airline := firstSegment.carrierCode,
            flightNumber := firstSegment.carrierCode ++ " " ++ firstSegment.number,
            departure := {
              airport := firstSegment.departure.iataCode,
              city := firstSegment.departure.iataCode,
              time := depTime,
              date := dateOfTimestamp firstSegment.departure.atTime },
            arrival := {
              airport := (lastSegmentOf firstSegment restSegments).arrival.iataCode,
              city := (lastSegmentOf firstSegment restSegments).arrival.iataCode,
              time := arrTime,
              date := dateOfTimestamp (lastSegmentOf firstSegment restSegments).arrival.atTime },
            duration := jsToLower (jsReplaceFirst itinerary.duration "PT" ""),
            stops := (firstSegment :: restSegments).length - 1,
            price := jsParseFloat offer.price.total,
            currency := offer.price.currency,
            aircraft := firstSegment.aircraft }
      | _, _ => none

/-! ## Price-history synthesis (`getPriceHistory`) -/

/-- The inline weekend factor: `1.1` when `getDay` is Sunday (0) or
Saturday (6), else `1.0`. -/
def weekendFactor (date : ℤ) : ℚ :=
  if jsGetDay date = 0 ∨ jsGetDay date = 6 then 11/10 else 1

/-- The inline seasonal factor: `1.15` when `getMonth` is in `5..8`
(June through September, 0-based), else `1.0`. -/
def seasonalFactor (date : ℤ) : ℚ :=
  if 5 ≤ jsGetMonth date ∧ jsGetMonth date ≤ 8 then 23/20 else 1

/-- The inline urgency factor keyed on `daysFromToday = |i - 30|`:
`1.2` below 7, `1.1` below 14, else `1.0`. -/
def urgencyMultiplier (daysFromToday : ℕ) : ℚ :=
  if daysFromToday < 7 then 6/5 else if daysFromToday < 14 then 11/10 else 1

/-- One iteration of the history loop at counter `i` (the code counts
`i = 30` down to `0`; the generated date is `today - i`). -/
def dayPrice (basePrice : ℚ) (today : ℤ) (rand : ℕ → ℚ) (i : ℕ) : PricePoint :=
  let date := today - (i : ℤ)
  let randomVariation := (rand i - 1/2) * (2/5)
  let daysFromToday := ((i : ℤ) - 30).natAbs
  let price := jsRound (basePrice * (1 + randomVariation) * weekendFactor date *
    seasonalFactor date * urgencyMultiplier daysFromToday)
  { date := date, price := max price (jsRound (basePrice * (3/5))) }

/-- The 31 points in generation order: the loop runs `i = 30, 29, …, 0`,
so position `j` of the produced array holds the point for `i = 30 - j`. -/
def synthRaw (basePrice : ℚ) (today : ℤ) (rand : ℕ → ℚ) : List PricePoint :=
  (List.range 31).map (fun j => dayPrice basePrice today rand (30 - j))

/-- `history.sort((a, b) => a.date.localeCompare(b.date))`: a stable sort
ascending by date (ISO strings of in-range dates compare like their epoch
days). -/
def sortByDate (l : List PricePoint) : List PricePoint :=
  l.mergeSort (fun a b => decide (a.date ≤ b.date))

/-- Sum of the parsed offer totals (`prices.reduce((sum, price) => sum +
price, 0)`); `none` models the `NaN` that poisons the sum when any total
fails to parse. -/
def sumParsedTotals : List AmadeusFlightOffer → Option ℚ
  | [] => some 0
  | o :: os =>
    match jsParseFloat o.price.total, sumParsedTotals os with
    | some p, some s => some (p + s)
    | _, _ => none

/-- The base price once a success response has arrived: the mean of the
parsed totals when `data.data` exists and is non-empty, else the fallback
constant 250.  `none` models a `NaN` mean. -/
def basePriceOf : Option (List AmadeusFlightOffer) → Option ℚ
  | some offers =>
      if 0 < offers.length then
        (sumParsedTotals offers).map (fun s => s / (offers.length : ℚ))
      else some 250
  | none => some 250

/-- The base price as a function of the offers-fetch outcome: a received
non-success response keeps the initial fallback 250; a success response
goes through `basePriceOf`.  A transport failure never reaches this point
(the exception skips to the catch block), hence `none`. -/
def effectiveBasePrice : FetchOutcome (Option (List AmadeusFlightOffer)) → Option ℚ
  | .transportError => none
  | .failure => some 250
  | .success d => basePriceOf d

/-- `getPriceHistory`, as a function of the token-acquisition outcome, the
offers-fetch outcome, today's epoch day, and the random stream.  Any
exception before the loop (failed token acquisition, transport failure)
lands in the catch block, which returns the empty list.  A run whose
base price is `NaN` (unparsable totals) is represented as `none`: the
real code would emit 31 `NaN`-priced points, which have no rational
counterpart. -/
def getPriceHistory (tokenResult : Except Unit String)
    (offersFetch : FetchOutcome (Option (List AmadeusFlightOffer)))
    (today : ℤ) (rand : ℕ → ℚ) : Option (List PricePoint) :=
  match tokenResult with
  | .error _ => some []
  | .ok _ =>
    match offersFetch with
    | .transportError => some []
    | f => (effectiveBasePrice f).map (fun bp => sortByDate (synthRaw bp today rand))

/-! ## Token lifecycle (`getAccessToken`, `loadStoredToken`) -/

/-- The service's in-memory token fields (`accessToken`, `tokenExpiry`).
The expiry is an instant in milliseconds since the epoch. -/
structure TokenMemory where
  accessToken : Option String
  tokenExpiry : Option ℤ
deriving Repr, DecidableEq

/-- The fields of an `AmadeusAuthResponse` the code consumes. -/
structure AmadeusAuthData where
  access_token : String
  expires_in : ℤ
deriving Repr, DecidableEq

/-- A successful `getAccessToken` call: the returned token, the resulting
in-memory state, how many token-endpoint exchanges the call performed,
and how many `localStorage.setItem` writes it issued. -/
structure TokenSuccess where
  token : String
  memory : TokenMemory
  exchanges : ℕ
  storeWrites : ℕ
deriving Repr, DecidableEq

/-- The exchange branch of `getAccessToken`: missing or empty credentials
throw; a transport failure or non-success response throws; a success
response installs the token with `expiresAt = now + expires_in * 1000`
and persists it (two `setItem` writes). -/
def exchangeToken (now : ℤ) (clientId clientSecret : Option String)
    (exchange : FetchOutcome AmadeusAuthData) : Except Unit TokenSuccess :=
  match clientId, clientSecret with
  | some cid, some csec =>
    if cid = "" ∨ csec = "" then .error ()
    else
      match exchange with
      | .transportError => .error ()
      | .failure => .error ()
      | .success data =>
          .ok { token := data.access_token,
                memory := { accessToken := some data.access_token,
                            tokenExpiry := some (now + data.expires_in * 1000) },
                exchanges := 1,
                storeWrites := 2 }
  | _, _ => .error ()

/-- `getAccessToken`: reuse the in-memory token when it is truthy and its
expiry lies strictly in the future, otherwise run the exchange branch. -/
def getAccessToken (mem : TokenMemory) (now : ℤ)
    (clientId clientSecret : Option String)
    (exchange : FetchOutcome AmadeusAuthData) : Except Unit TokenSuccess :=
  match mem.accessToken, mem.tokenExpiry with
  | some tok, some exp =>
      if tok ≠ "" ∧ now < exp then
        .ok { token := tok, memory := mem, exchanges := 0, storeWrites := 0 }
      else exchangeToken now clientId clientSecret exchange
  | _, _ => exchangeToken now clientId clientSecret exchange

/-- One persisted credential (the `amadeus_token` / `amadeus_token_expiry`
pair), with the expiry already parsed as an instant. -/
structure StoredCredential where
  token : String
  expiry : ℤ
deriving Repr, DecidableEq

/-- `loadStoredToken`: adopt an unexpired persisted credential into
memory; evict an expired one from storage; otherwise change nothing.
Returns the new memory and the new storage content. -/
def loadStoredToken (store : Option StoredCredential) (now : ℤ)
    (mem : TokenMemory) : TokenMemory × Option StoredCredential :=
  match store with
  | some st =>
      if st.token ≠ "" then
        if now < st.expiry then
          ({ accessToken := some st.token, tokenExpiry := some st.expiry }, some st)
        else (mem, none)
      else (mem, some st)
  | none => (mem, none)

/-- A sequence of `getAccessToken` calls at the given instants, threading
the in-memory state and accumulating the exchange and store-write counts.
A failed call leaves the memory unchanged (the exception propagates to
the caller of the moment, who retries nothing). -/
def runCalls (clientId clientSecret : Option String)
    (exchange : FetchOutcome AmadeusAuthData)
    (mem : TokenMemory) : List ℤ → List String × TokenMemory × ℕ × ℕ
  | [] => ([], mem, 0, 0)
  | t :: ts =>
    match getAccessToken mem t clientId clientSecret exchange with
    | .ok r =>
        let rest := runCalls clientId clientSecret exchange r.memory ts
        (r.token :: rest.1, rest.2.1, r.exchanges + rest.2.2.1, r.storeWrites + rest.2.2.2)
    | .error _ => runCalls clientId clientSecret exchange mem ts

/-! ## Airport suggestions (`getAirports`, `getMockAirports`) -/

/-- The case-insensitive substring test of the fallback filter:
`code.toLowerCase().includes(q) || city.… || name.…` with
`q = query.toLowerCase()`. -/
def matchesKeyword (query code city name : String) : Bool :=
  jsIncludes (jsToLower code) (jsToLower query) ||
  jsIncludes (jsToLower city) (jsToLower query) ||
  jsIncludes (jsToLower name) (jsToLower query)

/-- The hardcoded `mockAirports` catalog, in object-literal insertion
order (which `Object.entries` preserves), as `(code, city, name)`. -/
def mockAirportsCatalog : List (String × String × String) :=
  [("JFK", "New York", "John F. Kennedy International"),
   ("LAX", "Los Angeles", "Los Angeles International"),
   ("ORD", "Chicago", "O\x27Hare International"),
   ("MIA", "Miami", "Miami International"),
   ("SFO", "San Francisco", "San Francisco International"),
   ("SEA", "Seattle", "Seattle-Tacoma International"),
   ("BOS", "Boston", "Logan International"),
   ("DEN", "Denver", "Denver International"),
   ("LHR", "London", "Heathrow Airport"),
   ("CDG", "Paris", "Charles de Gaulle Airport")]

/-- `getMockAirports`: filter the catalog case-insensitively, project to
suggestions, truncate to 5. -/
def getMockAirports (query : String) : List AirportSuggestion :=
  ((mockAirportsCatalog.filter
      (fun e => matchesKeyword query e.1 e.2.1 e.2.2)).map
    (fun e => { code := e.1, city := e.2.1, name := e.2.2 })).take 5

/-- The live-path projection of one provider location:
`{code: iataCode, city: address?.cityName || iataCode, name}`. -/
def mapLocation (loc : AmadeusLocation) : AirportSuggestion :=
  { code := loc.iataCode,
    city := match loc.cityName with
            | some c => if c ≠ "" then c else loc.iataCode
            | none => loc.iataCode,
    name := loc.name }

/-- `getAirports`: on the live path map the response's `data` (or `[]`
when absent) and truncate to 5; any failure — token acquisition,
transport, or a non-success response — falls back to the mock catalog. -/
def getAirports (tokenResult : Except Unit String)
    (locFetch : FetchOutcome (Option (List AmadeusLocation)))
    (query : String) : List AirportSuggestion :=
  match tokenResult with
  | .error _ => getMockAirports query
  | .ok _ =>
    match locFetch with
    | .transportError => getMockAirports query
    | .failure => getMockAirports query
    | .success d => ((d.getD []).map mapLocation).take 5

/-! ## Concrete sample data for scenario claims and witnesses -/

/-- The raw offer of the spec's normalization scenario. -/
def rawOfferX : AmadeusFlightOffer :=
  { id := "X",
    itineraries := [{ duration := "PT2H30M",
                      segments := [{ departure := { iataCode := "JFK",
                                                    atTime := "2024-06-01T08:00" },
                                     arrival := { iataCode := "LAX",
                                                  atTime := "2024-06-01T11:30" },
                                     carrierCode := "AA", number := "100",
                                     aircraft := none }] }],
    price := { total := "199.99", currency := "USD" } }

/-- A two-segment sample itinerary. -/
def itinY : AmadeusItinerary :=
  { duration := "PT5H",
    segments := [{ departure := { iataCode := "AAA", atTime := "2024-01-01T01:00" },
                   arrival := { iataCode := "BBB", atTime := "2024-01-01T02:00" },
                   carrierCode := "ZZ", number := "1", aircraft := none },
                 { departure := { iataCode := "BBB", atTime := "2024-01-01T03:00" },
                   arrival := { iataCode := "CCC", atTime := "2024-01-01T04:30" },
                   carrierCode := "ZZ", number := "2", aircraft := none }] }

/-- A raw offer carrying the two-segment itinerary. -/
def rawOfferY : AmadeusFlightOffer :=
  { id := "Y", itineraries := [itinY],
    price := { total := "100", currency := "USD" } }

/-- `rawOfferY`'s normalization (price kept in parser form so that the
equation with `normalizeOffer` is definitional). -/
def normalizedY : FlightOffer :=
  { id := offerId "Y" 0, airline := "ZZ", flightNumber := "ZZ 1",
    departure := { airport := "AAA", city := "AAA", time := "01:00",
                   date := "2024-01-01" },
    arrival := { airport := "CCC", city := "CCC", time := "04:30",
                 date := "2024-01-01" },
    duration := "5h", stops := 1, price := jsParseFloat "100",
    currency := "USD", aircraft := none }

/-- `rawOfferY` with its `id` blanked out, for the falsy-id claim. -/
def rawOfferE : AmadeusFlightOffer :=
  { rawOfferY with id := "" }

/-- `rawOfferE`'s normalization at index 3. -/
def normalizedE : FlightOffer :=
  { normalizedY with id := offerId "" 3 }

example : parseFloatParts "199.99" = some (false, 199, 99, 2) := by decide
example : jsParseFloat "199.99" = some (19999 / 100) := by
  rw [jsParseFloat, show parseFloatParts "199.99" = some (false, 199, 99, 2) from by decide]
  norm_num
example : jsParseFloat "abc" = none := by
  rw [jsParseFloat, show parseFloatParts "abc" = none from by decide]
  rfl
example : jsToLower (jsReplaceFirst "PT2H30M" "PT" "") = "2h30m" := by decide
example : timeOfTimestamp "2024-06-01T08:00" = some "08:00" := by decide
example : dateOfTimestamp "2024-06-01T08:00" = "2024-06-01" := by decide
example : jsGetDay 0 = 4 := by decide
example : jsGetMonth 0 = 0 := by decide
example : jsGetMonth 19907 = 6 := by decide

/-! ## Supporting lemmas for the synthesizer -/

lemma dayPrice_date (bp : ℚ) (today : ℤ) (rand : ℕ → ℚ) (i : ℕ) :
    (dayPrice bp today rand i).date = today - (i : ℤ) := rfl

lemma dayPrice_price (bp : ℚ) (today : ℤ) (rand : ℕ → ℚ) (i : ℕ) :
    (dayPrice bp today rand i).price =
      max (jsRound (bp * (1 + (rand i - 1/2) * (2/5)) *
            weekendFactor (today - (i : ℤ)) * seasonalFactor (today - (i : ℤ)) *
            urgencyMultiplier (((i : ℤ) - 30).natAbs)))
        (jsRound (bp * (3/5))) := rfl

lemma synthRaw_length (bp : ℚ) (today : ℤ) (rand : ℕ → ℚ) :
    (synthRaw bp today rand).length = 31 := by
  simp [synthRaw]

lemma synthRaw_dates_lt (bp : ℚ) (today : ℤ) (rand : ℕ → ℚ) :
    (synthRaw bp today rand).Pairwise (fun a b => a.date < b.date) := by
  unfold synthRaw
  rw [List.pairwise_map, List.pairwise_iff_getElem]
  intro a b ha hb hab
  simp only [List.length_range] at ha hb
  simp only [List.getElem_range, dayPrice_date]
  omega

lemma sortByDate_synthRaw (bp : ℚ) (today : ℤ) (rand : ℕ → ℚ) :
    sortByDate (synthRaw bp today rand) = synthRaw bp today rand :=
  List.mergeSort_of_sorted
    ((synthRaw_dates_lt bp today rand).imp (fun h => decide_eq_true (le_of_lt h)))

lemma synthRaw_price_lb (bp : ℚ) (today : ℤ) (rand : ℕ → ℚ) :
    ∀ p ∈ synthRaw bp today rand, jsRound (bp * (3/5)) ≤ p.price := by
  intro p hp
  simp only [synthRaw, List.mem_map] at hp
  obtain ⟨j, -, rfl⟩ := hp
  rw [dayPrice_price]
  exact le_max_right _ _

lemma max_jsRound_int (a b : ℚ) : ∃ k : ℤ, max (jsRound a) (jsRound b) = (k : ℚ) :=
  ⟨max ⌊a + 1/2⌋ ⌊b + 1/2⌋, by simp [jsRound, Int.cast_max]⟩

lemma synthRaw_price_int (bp : ℚ) (today : ℤ) (rand : ℕ → ℚ) :
    ∀ p ∈ synthRaw bp today rand, ∃ k : ℤ, p.price = (k : ℚ) := by
  intro p hp
  simp only [synthRaw, List.mem_map] at hp
  obtain ⟨j, -, rfl⟩ := hp
  rw [dayPrice_price]
  exact max_jsRound_int _ _

lemma getPriceHistory_ok (tok : String)
    (fetch : FetchOutcome (Option (List AmadeusFlightOffer)))
    (today : ℤ) (rand : ℕ → ℚ) (h : fetch ≠ FetchOutcome.transportError) :
    getPriceHistory (.ok tok) fetch today rand =
      (effectiveBasePrice fetch).map (fun bp => sortByDate (synthRaw bp today rand)) := by
  cases fetch with
  | transportError => exact absurd rfl h
  | failure => rfl
  | success d => rfl

/-! ## Claim C1 -/

/-- Claim C1, counterexample: when the offers endpoint is unreachable
(transport-level failure, no response), `getPriceHistory` does not return
31 fallback points — the exception reaches the catch block and the call
returns the empty list. -/
theorem getPriceHistory_unreachable_empty_cex :
    getPriceHistory (.ok "token") .transportError 20000 (fun _ => 1/2) = some [] ∧
    ([] : List PricePoint).length ≠ 31 :=
  ⟨rfl, by decide⟩

/-- Claim C1 (amended): a transport-level failure of the offers request
makes `getPriceHistory` return the empty sequence; the 31-point history
derived from the fallback base price 250 is produced when a response is
received but has a non-success status. -/
theorem getPriceHistory_failure_modes (tok : String) (today : ℤ) (rand : ℕ → ℚ) :
    getPriceHistory (.ok tok) .transportError today rand = some [] ∧
    getPriceHistory (.ok tok) .failure today rand =
      some (sortByDate (synthRaw 250 today rand)) ∧
    (sortByDate (synthRaw 250 today rand)).length = 31 ∧
    ∀ p ∈ sortByDate (synthRaw 250 today rand), (150 : ℚ) ≤ p.price := by
  have h150 : jsRound ((250 : ℚ) * (3/5)) = 150 := by
    norm_num [jsRound]
  refine ⟨rfl, rfl, ?_, ?_⟩
  · rw [sortByDate_synthRaw]; exact synthRaw_length 250 today rand
  · rw [sortByDate_synthRaw]
    intro p hp
    have := synthRaw_price_lb 250 today rand p hp
    rwa [h150] at this

/-! ## Claim C3 -/

/-- Claim C3: whenever `getPriceHistory` returns its synthesized history
(token acquired, a response received, base price well defined — the mean
of the parsed totals when at least one offer came back, 250 otherwise,
per `effectiveBasePrice`), the history has exactly 31 points, strictly
ascending dates, and every price at least `round(0.6 * basePrice)`. -/
theorem getPriceHistory_synthesis_shape (tok : String)
    (fetch : FetchOutcome (Option (List AmadeusFlightOffer)))
    (today : ℤ) (rand : ℕ → ℚ) (bp : ℚ)
    (hbp : effectiveBasePrice fetch = some bp) :
    ∃ hist, getPriceHistory (.ok tok) fetch today rand = some hist ∧
      hist.length = 31 ∧
      hist.Pairwise (fun a b => a.date < b.date) ∧
      ∀ p ∈ hist, jsRound (bp * (3/5)) ≤ p.price := by
  have hne : fetch ≠ FetchOutcome.transportError := by
    rintro rfl; simp [effectiveBasePrice] at hbp
  refine ⟨sortByDate (synthRaw bp today rand), ?_, ?_, ?_, ?_⟩
  · rw [getPriceHistory_ok tok fetch today rand hne, hbp]; rfl
  · rw [sortByDate_synthRaw]; exact synthRaw_length bp today rand
  · rw [sortByDate_synthRaw]; exact synthRaw_dates_lt bp today rand
  · rw [sortByDate_synthRaw]; exact synthRaw_price_lb bp today rand

/-- Witness for C3, at the received-non-success path (base price 250). -/
theorem getPriceHistory_synthesis_shape_witness :
    ∃ hist, getPriceHistory (.ok "token") .failure 0 (fun _ => 1/2) = some hist ∧
      hist.length = 31 ∧
      hist.Pairwise (fun a b => a.date < b.date) ∧
      ∀ p ∈ hist, jsRound ((250 : ℚ) * (3/5)) ≤ p.price :=
  getPriceHistory_synthesis_shape "token" .failure 0 (fun _ => 1/2) 250 rfl

/-! ## Claim C4 -/

/-- Claim C4: the urgency multiplier applied to the loop iteration `i`
(which generates the day `today - i`) is keyed on that day's distance
from the oldest day of the window, `(today - i) - (today - 30) = |i - 30|`
— not on its distance from today — and the thresholds are strict: within
7 of the anchor gives 1.2, within 14 gives 1.1, else 1.0. -/
theorem dayPrice_urgency_anchor (bp : ℚ) (today : ℤ) (rand : ℕ → ℚ) (i : ℕ)
    (h : i ≤ 30) :
    (dayPrice bp today rand i).price =
      max (jsRound (bp * (1 + (rand i - 1/2) * (2/5)) *
            weekendFactor (today - (i : ℤ)) * seasonalFactor (today - (i : ℤ)) *
            urgencyMultiplier (((today - (i : ℤ)) - (today - 30)).toNat)))
        (jsRound (bp * (3/5))) ∧
    (∀ dist : ℕ,
      urgencyMultiplier dist =
        if dist < 7 then 6/5 else if dist < 14 then 11/10 else 1) := by
  constructor
  · have harg : (((i : ℤ) - 30).natAbs) = ((today - (i : ℤ)) - (today - 30)).toNat := by
      omega
    rw [dayPrice_price, harg]
  · intro dist; rfl

/-- Witness for C4 at `i = 3` (a day within 7 of the oldest-day anchor
would be `i ≥ 24`; day `i = 3` sits 27 days from the anchor). -/
theorem dayPrice_urgency_anchor_witness :
    ((dayPrice 2 100 (fun _ => 0) 3).price =
      max (jsRound (2 * (1 + ((0 : ℚ) - 1/2) * (2/5)) *
            weekendFactor (100 - (3 : ℤ)) * seasonalFactor (100 - (3 : ℤ)) *
            urgencyMultiplier (((100 - (3 : ℤ)) - (100 - 30)).toNat)))
        (jsRound (2 * (3/5))) ∧
    (∀ dist : ℕ,
      urgencyMultiplier dist =
        if dist < 7 then 6/5 else if dist < 14 then 11/10 else 1)) :=
  dayPrice_urgency_anchor 2 100 (fun _ => 0) 3 (by decide)

/-! ## Claim C9 -/

/-- Claim C9: every price in a returned history is an integer number of
currency units — each point is a `Math.round` result kept above a
`Math.round` floor — even though the base price may be fractional. -/
theorem getPriceHistory_prices_integral (tokenResult : Except Unit String)
    (fetch : FetchOutcome (Option (List AmadeusFlightOffer)))
    (today : ℤ) (rand : ℕ → ℚ) (hist : List PricePoint)
    (hret : getPriceHistory tokenResult fetch today rand = some hist) :
    ∀ p ∈ hist, ∃ k : ℤ, p.price = (k : ℚ) := by
  intro p hp
  cases tokenResult with
  | error e =>
      simp only [getPriceHistory, Option.some.injEq] at hret
      subst hret
      simp at hp
  | ok tok =>
    cases fetch with
    | transportError =>
        simp only [getPriceHistory, Option.some.injEq] at hret
        subst hret
        simp at hp
    | failure =>
        rw [getPriceHistory_ok tok _ today rand (by simp)] at hret
        obtain ⟨bp, -, rfl⟩ := Option.map_eq_some'.mp hret
        rw [sortByDate_synthRaw] at hp
        exact synthRaw_price_int bp today rand p hp
    | success d =>
        rw [getPriceHistory_ok tok _ today rand (by simp)] at hret
        obtain ⟨bp, -, rfl⟩ := Option.map_eq_some'.mp hret
        rw [sortByDate_synthRaw] at hp
        exact synthRaw_price_int bp today rand p hp

/-- Witness for C9 on the fallback-base-price run, at the point the loop
generates first (the oldest day, counter 30). -/
theorem getPriceHistory_prices_integral_witness :
    ∃ k : ℤ, (dayPrice 250 0 (fun _ => 1/2) 30).price = (k : ℚ) :=
  getPriceHistory_prices_integral (.ok "token") .failure 0 (fun _ => 1/2)
    (sortByDate (synthRaw 250 0 (fun _ => 1/2))) rfl
    (dayPrice 250 0 (fun _ => 1/2) 30)
    (by
      rw [sortByDate_synthRaw]
      exact List.mem_map.mpr ⟨0, List.mem_range.mpr (by norm_num), rfl⟩)

/-! ## Claims C5 and C6 -/

lemma exchangeToken_ok {now : ℤ} {cid csec : Option String}
    {exchange : FetchOutcome AmadeusAuthData} {r : TokenSuccess}
    (hret : exchangeToken now cid csec exchange = .ok r) :
    ∃ d, exchange = .success d ∧ r.token = d.access_token ∧
      r.memory = ⟨some d.access_token, some (now + d.expires_in * 1000)⟩ := by
  cases cid with
  | none => simp [exchangeToken] at hret
  | some c =>
    cases csec with
    | none => simp [exchangeToken] at hret
    | some s =>
      cases exchange with
      | transportError => simp [exchangeToken] at hret
      | failure => simp [exchangeToken] at hret
      | success d =>
          by_cases hc : c = "" ∨ s = ""
          · simp [exchangeToken, hc] at hret
          · simp only [exchangeToken, if_neg hc] at hret
            injection hret with h
            subst h
            exact ⟨d, rfl, rfl, rfl⟩

/-- Claim C5, counterexample: a fresh exchange whose provider response
reports `expires_in = 0` installs and returns a token whose expiry equals
the current instant — not strictly later than it — because the exchange
path performs no expiry check on what it just computed. -/
theorem getAccessToken_zero_ttl_cex :
    getAccessToken ⟨none, none⟩ 1000 (some "id") (some "secret")
        (.success ⟨"tok", 0⟩) =
      .ok ⟨"tok", ⟨some "tok", some 1000⟩, 1, 2⟩ ∧
    ¬ ((1000 : ℤ) < 1000) :=
  ⟨rfl, by decide⟩

/-- Claim C5 (amended): tokens returned from the in-memory reuse path are
checked unexpired at the moment of the call, and `loadStoredToken` only
adopts a persisted credential whose expiry is strictly in the future; a
fresh exchange sets `expiresAt = now + expires_in * 1000` without a
check, so its token is unexpired exactly when the provider-reported
`expires_in` is positive. -/
theorem getAccessToken_unexpired_amended (mem : TokenMemory) (now : ℤ)
    (clientId clientSecret : Option String)
    (exchange : FetchOutcome AmadeusAuthData) (r : TokenSuccess)
    (hpos : ∀ d, exchange = .success d → 0 < d.expires_in)
    (hret : getAccessToken mem now clientId clientSecret exchange = .ok r) :
    (∃ exp, r.memory.tokenExpiry = some exp ∧ now < exp ∧
      r.memory.accessToken = some r.token) ∧
    (∀ (store : Option StoredCredential) (mem₀ : TokenMemory),
      (loadStoredToken store now mem₀).1 = mem₀ ∨
      ∃ st, store = some st ∧
        (loadStoredToken store now mem₀).1 = ⟨some st.token, some st.expiry⟩ ∧
        now < st.expiry) := by
  have hex : ∀ (cid csec : Option String),
      exchangeToken now cid csec exchange = .ok r →
      ∃ exp, r.memory.tokenExpiry = some exp ∧ now < exp ∧
        r.memory.accessToken = some r.token := by
    intro cid csec hr
    obtain ⟨d, hd, htk, hm⟩ := exchangeToken_ok hr
    refine ⟨now + d.expires_in * 1000, by rw [hm], ?_, by rw [hm, htk]⟩
    have := hpos d hd
    omega
  constructor
  · obtain ⟨atk, texp⟩ := mem
    cases atk with
    | none => exact hex _ _ hret
    | some tok =>
      cases texp with
      | none => exact hex _ _ hret
      | some exp =>
        simp only [getAccessToken] at hret
        split at hret
        · injection hret with h
          subst h
          next hc => exact ⟨exp, rfl, hc.2, rfl⟩
        · exact hex _ _ hret
  · intro store mem₀
    cases store with
    | none => left; rfl
    | some st =>
      by_cases ht : st.token ≠ ""
      · by_cases hexp : now < st.expiry
        · right; exact ⟨st, rfl, by simp [loadStoredToken, ht, hexp], hexp⟩
        · left; simp [loadStoredToken, ht, hexp]
      · left; simp [loadStoredToken, ht]

/-- Witness for C5 (amended): a valid in-memory credential at instant 3
with expiry 5. -/
theorem getAccessToken_unexpired_amended_witness :
    (∃ exp, (TokenSuccess.mk "t" ⟨some "t", some 5⟩ 0 0).memory.tokenExpiry = some exp ∧
      (3 : ℤ) < exp ∧
      (TokenSuccess.mk "t" ⟨some "t", some 5⟩ 0 0).memory.accessToken =
        some (TokenSuccess.mk "t" ⟨some "t", some 5⟩ 0 0).token) ∧
    (∀ (store : Option StoredCredential) (mem₀ : TokenMemory),
      (loadStoredToken store 3 mem₀).1 = mem₀ ∨
      ∃ st, store = some st ∧
        (loadStoredToken store 3 mem₀).1 = ⟨some st.token, some st.expiry⟩ ∧
        (3 : ℤ) < st.expiry) :=
  getAccessToken_unexpired_amended ⟨some "t", some 5⟩ 3 none none .transportError
    ⟨"t", ⟨some "t", some 5⟩, 0, 0⟩ (fun _ h => nomatch h) rfl

/-- Claim C6: while the in-memory credential is a non-empty token whose
expiry lies strictly after every call instant, repeated `getAccessToken`
calls all return that token, leave the memory unchanged, perform zero
token-endpoint exchanges, and issue zero storage writes. -/
theorem runCalls_no_refresh (tok : String) (exp : ℤ)
    (clientId clientSecret : Option String)
    (exchange : FetchOutcome AmadeusAuthData) (times : List ℤ)
    (htok : tok ≠ "") (h : ∀ t ∈ times, t < exp) :
    runCalls clientId clientSecret exchange ⟨some tok, some exp⟩ times =
      (times.map (fun _ => tok), ⟨some tok, some exp⟩, 0, 0) := by
  induction times with
  | nil => rfl
  | cons t ts ih =>
    have hcall : getAccessToken ⟨some tok, some exp⟩ t clientId clientSecret exchange =
        .ok ⟨tok, ⟨some tok, some exp⟩, 0, 0⟩ := by
      simp only [getAccessToken]
      rw [if_pos ⟨htok, h t (List.mem_cons_self t ts)⟩]
    simp only [runCalls, hcall]
    rw [ih (fun x hx => h x (List.mem_cons_of_mem t hx))]
    rfl

/-- Witness for C6: two calls at instants 1 and 2 against a credential
expiring at 5. -/
theorem runCalls_no_refresh_witness :
    runCalls none none .transportError ⟨some "t", some 5⟩ [1, 2] =
      ([1, 2].map (fun _ => "t"), ⟨some "t", some 5⟩, 0, 0) :=
  runCalls_no_refresh "t" 5 none none .transportError [1, 2] (by decide)
    (by decide)

/-! ## Claim C2 -/

lemma getMockAirports_matches (query : String) :
    ∀ s ∈ getMockAirports query,
      matchesKeyword query s.code s.city s.name = true := by
  intro s hs
  obtain ⟨e, he, rfl⟩ := List.mem_map.mp (List.mem_of_mem_take hs)
  exact (List.mem_filter.mp he).2

/-- Claim C2, counterexample: on the live path `getAirports` truncates
but never filters, so a provider location unrelated to the keyword is
returned as-is — here keyword `"q"` yields a suggestion none of whose
fields contains `"q"` case-insensitively. -/
theorem getAirports_live_unmatched_cex :
    getAirports (.ok "token")
        (.success (some [{ iataCode := "ZZZ", name := "Foo", cityName := some "Bar" }]))
        "q" =
      [{ code := "ZZZ", city := "Bar", name := "Foo" }] ∧
    matchesKeyword "q" "ZZZ" "Bar" "Foo" = false :=
  ⟨rfl, by decide⟩

/-- Claim C2 (amended): `getAirports` always returns at most 5
suggestions, and on the fallback path (any failure: here a failed token
acquisition) every returned suggestion matches the keyword
case-insensitively against code, city, or name; the live path passes
provider results through unfiltered (truncated to 5). -/
theorem getAirports_bounded_fallback_matches (tokenResult : Except Unit String)
    (locFetch locFetch2 : FetchOutcome (Option (List AmadeusLocation)))
    (query : String) :
    (getAirports tokenResult locFetch query).length ≤ 5 ∧
    ∀ s ∈ getAirports (Except.error ()) locFetch2 query,
      matchesKeyword query s.code s.city s.name = true := by
  have hmock_len : (getMockAirports query).length ≤ 5 := List.length_take_le 5 _
  refine ⟨?_, getMockAirports_matches query⟩
  cases tokenResult with
  | error e => exact hmock_len
  | ok tok =>
    cases locFetch with
    | transportError => exact hmock_len
    | failure => exact hmock_len
    | success d => exact List.length_take_le 5 _

/-! ## Claims C7, C8, C10 -/

lemma normalizeOffer_some_fields {offer : AmadeusFlightOffer} {index : ℕ}
    {fo : FlightOffer} (hnorm : normalizeOffer offer index = some fo) :
    fo.id = offerId offer.id index ∧
    ∃ itin rest, offer.itineraries = itin :: rest ∧
      1 ≤ itin.segments.length ∧ fo.stops = itin.segments.length - 1 := by
  rw [normalizeOffer] at hnorm
  split at hnorm
  · exact absurd hnorm (by simp)
  · next itin tail heq =>
    split at hnorm
    · exact absurd hnorm (by simp)
    · next s ss hseg =>
      split at hnorm
      · injection hnorm with h
        subst h
        refine ⟨rfl, itin, tail, heq, ?_, ?_⟩
        · rw [hseg]; simp
        · rw [hseg]
      · exact absurd hnorm (by simp)

/-- Claim C7: when normalization succeeds on an offer whose first
itinerary has `N ≥ 1` segments, the canonical offer has `stops = N - 1`;
in particular one segment gives zero stops. -/
theorem normalizeOffer_stops (offer : AmadeusFlightOffer) (index : ℕ)
    (itin : AmadeusItinerary) (rest : List AmadeusItinerary) (fo : FlightOffer)
    (hitin : offer.itineraries = itin :: rest)
    (hnorm : normalizeOffer offer index = some fo) :
    fo.stops = itin.segments.length - 1 ∧
    (itin.segments.length = 1 → fo.stops = 0) := by
  obtain ⟨-, itin', rest', hitin', hlen, hstops⟩ := normalizeOffer_some_fields hnorm
  rw [hitin] at hitin'
  injection hitin' with h1 h2
  subst h1
  exact ⟨hstops, fun hone => by omega⟩

/-- Witness for C7: the two-segment sample offer normalizes with
`stops = 1`. -/
theorem normalizeOffer_stops_witness :
    normalizedY.stops = itinY.segments.length - 1 ∧
    (itinY.segments.length = 1 → normalizedY.stops = 0) :=
  normalizeOffer_stops rawOfferY 0 itinY [] normalizedY rfl rfl

/-- Claim C8: the spec's concrete normalization scenario, at any index:
the raw JFK-to-LAX offer maps to the expected canonical offer, including
`duration = "2h30m"`, `stops = 0`, and `price = 199.99`. -/
theorem normalizeOffer_scenario (index : ℕ) :
    normalizeOffer rawOfferX index = some {
      id := "X", airline := "AA", flightNumber := "AA 100",
      departure := { airport := "JFK", city := "JFK", time := "08:00",
                     date := "2024-06-01" },
      arrival := { airport := "LAX", city := "LAX", time := "11:30",
                   date := "2024-06-01" },
      duration := "2h30m", stops := 0, price := some ((19999 : ℚ) / 100),
      currency := "USD", aircraft := none } := by
  have hpf : jsParseFloat "199.99" = some ((19999 : ℚ) / 100) := by
    rw [jsParseFloat,
        show parseFloatParts "199.99" = some (false, 199, 99, 2) from by decide]
    norm_num
  have hid : offerId "X" index = "X" := if_neg (by decide)
  have h1 : normalizeOffer rawOfferX index = some {
      id := offerId "X" index, airline := "AA", flightNumber := "AA 100",
      departure := { airport := "JFK", city := "JFK", time := "08:00",
                     date := "2024-06-01" },
      arrival := { airport := "LAX", city := "LAX", time := "11:30",
                   date := "2024-06-01" },
      duration := "2h30m", stops := 0, price := jsParseFloat "199.99",
      currency := "USD", aircraft := none } := rfl
  rw [h1, hid, hpf]

/-- Claim C10: an offer whose `id` is the empty string (falsy in JS, like
an absent field) gets the synthetic id `"flight-" ++ index`, and in
particular never keeps an empty id. -/
theorem normalizeOffer_empty_id (offer : AmadeusFlightOffer) (index : ℕ)
    (fo : FlightOffer) (hid : offer.id = "")
    (hnorm : normalizeOffer offer index = some fo) :
    fo.id = "flight-" ++ toString index ∧ fo.id ≠ "" := by
  obtain ⟨hfo, -⟩ := normalizeOffer_some_fields hnorm
  rw [hid] at hfo
  have h1 : fo.id = "flight-" ++ toString index := by
    rw [hfo, offerId, if_pos rfl]
  refine ⟨h1, ?_⟩
  rw [h1]
  intro hcon
  have hlen := congrArg String.length hcon
  have h7 : ("flight-" : String).length = 7 := rfl
  have h0 : ("" : String).length = 0 := rfl
  rw [String.length_append, h7, h0] at hlen
  omega

/-- Witness for C10: the blank-id sample offer at index 3. -/
theorem normalizeOffer_empty_id_witness :
    normalizedE.id = "flight-" ++ toString 3 ∧ normalizedE.id ≠ "" :=
  normalizeOffer_empty_id rawOfferE 3 normalizedE rfl rfl
